import Mathlib

/-!
Shallow embedding of the request-handling core of the koa Application class
(src/lib/application.js): constructor defaults, middleware registration,
callback composition, request dispatch, the response serializer and the
default error hook.  JavaScript mutation is rendered as explicit state
passing, promises as the Except monad, and machine-level concerns do not
arise (all numbers involved are small integers).

Accessors that live in files of the repository that are not part of src/
(response.js, context.js) and the external collaborators (the statuses
registry, koa-compose) are modelled from the spec where noted.
-/

/-- JS falsy-or on strings: the empty string is falsy, so `jsOrS a b` models
the JavaScript expression `a || b` for string `a`. -/
def jsOrS (a b : String) : String := if a = "" then b else a

/-- JS falsy-or on an optional string: `undefined` and the empty string are
both falsy, so `jsOrOptS v d` models `v || d` where `v` may be undefined. -/
def jsOrOptS (v : Option String) (d : String) : String := jsOrS (v.getD "") d

/-- JS falsy-or on an optional integer: `undefined` and `0` are falsy, so
`jsOrOptI v d` models `v || d` for a numeric option `v`. -/
def jsOrOptI (v : Option Int) (d : Int) : Int :=
  match v with
  | none => d
  | some n => if n = 0 then d else n

/-- Modelled from the spec: the external status registry (spec section 6) maps
codes to a has-body flag; `statuses.empty` marks 204, 205 and 304 as
body-less. -/
def statuses_empty (c : Nat) : Bool := c = 204 || c = 205 || c = 304

/-- Modelled from the spec: the message table of the external status registry
(spec section 6), restricted to common codes; codes absent from the table
yield none. -/
def statuses_message (c : Nat) : Option String :=
  if c = 200 then some "OK"
  else if c = 201 then some "Created"
  else if c = 204 then some "No Content"
  else if c = 301 then some "Moved Permanently"
  else if c = 304 then some "Not Modified"
  else if c = 400 then some "Bad Request"
  else if c = 403 then some "Forbidden"
  else if c = 404 then some "Not Found"
  else if c = 500 then some "Internal Server Error"
  else none

/-- The tagged union of response body representations (spec section 3):
absent (covering both null and undefined), a raw byte buffer, a string, a
readable stream (identified by an id), or an arbitrary structured value.  A
structured value is carried by its JSON text, since its serialization is done
by the standard library and no claim depends on its internals. -/
inductive Body where
  | null : Body
  | buffer : List Nat → Body
  | str : String → Body
  | stream : Nat → Body
  | jsonVal : String → Body
deriving DecidableEq

/-- The raw outgoing response: exactly the fields of the transport's response
object that application.js reads or writes. -/
structure RawRes where
  statusCode : Nat
  headersSent : Bool
deriving DecidableEq

/-- The per-request context as the dispatcher and serializer see it.  The
accessor properties that live in the missing response.js (writable,
explicitNullBody, the header state touched by the type/length setters and
remove calls) are modelled from the spec as plain fields; the raw response is
held directly. -/
structure Ctx where
  res : RawRes
  respondBypass : Bool
  writable : Bool
  body : Body
  method : String
  explicitNullBody : Bool
  httpVersionMajor : Nat
  contentType : Option String
  contentLength : Option Nat
  transferEncoding : Option String
  responseLength : Option Nat
deriving DecidableEq

/-- Modelled from the spec: ctx.status delegates to the raw response's status
code (the response wrapper holding the getter is absent from src/). -/
def Ctx.status (c : Ctx) : Nat := c.res.statusCode

/-- Modelled from the spec: ctx.message is the registry's human-readable
message for the current status, or the empty string when the registry has
none (the response wrapper holding the getter is absent from src/). -/
def Ctx.message (c : Ctx) : String := (statuses_message c.status).getD ""

/-- What the serializer does to the transport: nothing (bypassed or not
writable), end with zero bytes, end with a string body, end with a buffer, or
pipe a stream. -/
inductive RespondAction where
  | skipped : RespondAction
  | endEmpty : RespondAction
  | endWith : String → RespondAction
  | endBuffer : List Nat → RespondAction
  | pipeStream : Nat → RespondAction
deriving DecidableEq

/-- The fallback body synthesized for a missing body (application.js lines
329-333): the stringified status code on HTTP/2+, otherwise the status
message or, failing that, the stringified status code. -/
def fallbackBody (ctx : Ctx) : String :=
  if 2 ≤ ctx.httpVersionMajor then toString ctx.status
  else jsOrS ctx.message (toString ctx.status)

/-- Shallow embedding of respond (application.js lines 296-352).  Returns the
context after the serializer's mutations together with the action performed
on the transport.  Branches follow the source order: bypass check, writable
check, body-less status class, HEAD, missing body (explicit null or fallback
synthesis), then dispatch on the body kind. -/
def respond (ctx : Ctx) : Ctx × RespondAction :=
  if ctx.respondBypass then (ctx, RespondAction.skipped)
  else if !ctx.writable then (ctx, RespondAction.skipped)
  else if statuses_empty ctx.status then
    ({ ctx with body := Body.null }, RespondAction.endEmpty)
  else if ctx.method = "HEAD" then
    if !ctx.res.headersSent && ctx.contentLength.isNone then
      match ctx.responseLength with
      | some n => ({ ctx with contentLength := some n }, RespondAction.endEmpty)
      | none => (ctx, RespondAction.endEmpty)
    else (ctx, RespondAction.endEmpty)
  else
    match ctx.body with
    | Body.null =>
      if ctx.explicitNullBody then
        ({ ctx with contentType := none, transferEncoding := none,
                    contentLength := some 0 }, RespondAction.endEmpty)
      else
        let b := fallbackBody ctx
        if ctx.res.headersSent then (ctx, RespondAction.endWith b)
        else ({ ctx with contentType := some "text",
                         contentLength := some b.utf8ByteSize },
              RespondAction.endWith b)
    | Body.buffer bs => (ctx, RespondAction.endBuffer bs)
    | Body.str s => (ctx, RespondAction.endWith s)
    | Body.stream i => (ctx, RespondAction.pipeStream i)
    | Body.jsonVal s =>
      if ctx.res.headersSent then (ctx, RespondAction.endWith s)
      else ({ ctx with contentLength := some s.utf8ByteSize },
            RespondAction.endWith s)

/-- A concrete HTTP/1.1 context with a missing body and default 404 status,
used to exercise the serializer's fallback branch. -/
def ctxNull404 : Ctx :=
  ⟨⟨404, false⟩, false, true, Body.null, "GET", false, 1, none, none, none, none⟩

/-- The ctxNull404 scenario over HTTP/2: same context but major version 2. -/
def ctxNull404H2 : Ctx :=
  ⟨⟨404, false⟩, false, true, Body.null, "GET", false, 2, none, none, none, none⟩

/-- A concrete 204 context carrying a string body, used to exercise the
body-less status branch of the serializer. -/
def ctxEmpty204 : Ctx :=
  ⟨⟨204, false⟩, false, true, Body.str "hello", "GET", false, 1, none, none, none, none⟩

/-- A thrown error value as the default error hook classifies it: either a
genuine error object (covering both branches of the cross-globals
isNativeError test, application.js lines 255-257) or any other value,
carried by its printed form. -/
structure ErrObj where
  status : Option Nat
  expose : Bool
  stack : Option String
  toStr : String
deriving DecidableEq

/-- A value thrown by middleware or by the serializer: a genuine error
object, or a non-error value carried by its printed form. -/
inductive ErrVal where
  | genuine : ErrObj → ErrVal
  | nonError : String → ErrVal
deriving DecidableEq

/-- A middleware denotation: given the context and the next-in-chain
continuation, produce the settled context or a rejection (spec section 3,
"async-capable transformer"). -/
abbrev Middleware : Type := Ctx → (Ctx → Except ErrVal Ctx) → Except ErrVal Ctx

/-- The Application instance state that the claims touch: the constructor's
configuration fields (application.js lines 60-104), the middleware list and
the silent flag read by the default error hook.  The template objects, the
compose override and the asyncLocalStorage wiring are not modelled. -/
structure App where
  proxy : Bool
  subdomainOffset : Int
  proxyIpHeader : String
  maxIpsCount : Int
  env : String
  keys : Option (List String)
  middleware : List Middleware
  silent : Bool

/-- The options object accepted by the Application constructor; none stands
for an absent (undefined) property. -/
structure Options where
  proxy : Option Bool
  subdomainOffset : Option Int
  proxyIpHeader : Option String
  maxIpsCount : Option Int
  env : Option String
  keys : Option (List String)

/-- Shallow embedding of the Application constructor (application.js lines
60-104): every explicitly-supplied but falsy option value falls back to its
default through the JS or-operator; env additionally falls back through the
process environment's NODE_ENV; keys is only assigned when supplied.  The
nodeEnv argument stands for process.env.NODE_ENV. -/
def mkApplication (opts : Options) (nodeEnv : Option String) : App :=
  { proxy := opts.proxy.getD false
    subdomainOffset := jsOrOptI opts.subdomainOffset 2
    proxyIpHeader := jsOrOptS opts.proxyIpHeader "X-Forwarded-For"
    maxIpsCount := jsOrOptI opts.maxIpsCount 0
    env := jsOrOptS opts.env (jsOrOptS nodeEnv "development")
    keys := opts.keys
    middleware := []
    silent := false }

/-- How a use call returns: by throwing a TypeError before any mutation, or
by returning the application itself after the push. -/
inductive UseOutcome where
  | threwTypeError : String → UseOutcome
  | returnedSelf : UseOutcome
deriving DecidableEq

/-- An argument passed to use: a callable middleware or any non-callable
value, carried by its printed form. -/
inductive FnVal where
  | func : Middleware → FnVal
  | notFunc : String → FnVal

/-- Shallow embedding of use (application.js lines 159-164): a non-callable
argument throws before the push, so the returned application state is the
one passed in; a callable is appended at the end of the middleware list and
the application itself (its updated state, tagged returnedSelf) is
returned. -/
def App.use (app : App) (fn : FnVal) : App × UseOutcome :=
  match fn with
  | FnVal.notFunc _ => (app, UseOutcome.threwTypeError "middleware must be a function!")
  | FnVal.func f => ({ app with middleware := app.middleware ++ [f] }, UseOutcome.returnedSelf)

/-- Modelled from the spec: the external composition strategy (koa-compose,
spec section 4.2) turns the middleware list present at composition time into
one pipeline executing the entries in registration order; the terminal next
resolves immediately with the context as it stands. -/
def composeRun : List Middleware → Ctx → Except ErrVal Ctx
  | [], ctx => Except.ok ctx
  | m :: rest, ctx => m ctx (composeRun rest)

/-- Promise then on the success path: apply the continuation to a resolved
value, propagate a rejection unchanged. -/
def pThen {α β : Type} (p : Except ErrVal α) (f : α → Except ErrVal β) : Except ErrVal β :=
  match p with
  | Except.ok a => f a
  | Except.error e => Except.error e

/-- Promise catch: pass a resolved value through, hand a rejection to the
handler. -/
def pCatch {α : Type} (p : Except ErrVal α) (h : ErrVal → Except ErrVal α) : Except ErrVal α :=
  match p with
  | Except.ok a => Except.ok a
  | Except.error e => h e

/-- The observable outcome of one dispatched request: the context was handed
to the serializer (with the action it performed), or the error was handed to
the context's onerror hook. -/
inductive Outcome where
  | served : Ctx → RespondAction → Outcome
  | handledError : ErrVal → Outcome
deriving DecidableEq

/-- The 404 default written onto the raw response before the pipeline runs
(application.js line 210). -/
def set404 (ctx : Ctx) : Ctx := { ctx with res := { ctx.res with statusCode := 404 } }

/-- Shallow embedding of handleRequest (application.js lines 208-217) with
the serializer kept abstract so that a throwing serializer is representable:
the response status is first forced to 404, the pipeline runs, its
resolution flows through the serializer, and the single trailing catch
routes any rejection from either stage to ctx.onerror.  The hook ctx.onerror
lives in context.js, absent from src/, and is modelled from the spec
(section 7: errors are never propagated back) as total, so the catch handler
always resolves. -/
def handleRequestWith (ctx : Ctx) (fn : Ctx → Except ErrVal Ctx)
    (serializer : Ctx → Except ErrVal (Ctx × RespondAction)) : Except ErrVal Outcome :=
  pCatch (pThen (fn (set404 ctx)) (fun c =>
      pThen (serializer c) (fun r => Except.ok (Outcome.served r.1 r.2))))
    (fun e => Except.ok (Outcome.handledError e))

/-- handleRequest with the actual serializer respond, which never throws in
this model. -/
def handleRequest (ctx : Ctx) (fn : Ctx → Except ErrVal Ctx) : Except ErrVal Outcome :=
  handleRequestWith ctx fn (fun c => Except.ok (respond c))

/-- Shallow embedding of callback (application.js lines 174-193): the
middleware list as it stands at the call is composed once, and the returned
handler serves every request through that already-composed pipeline. -/
def callback (app : App) : Ctx → Except ErrVal Outcome :=
  fun ctx => handleRequest ctx (composeRun app.middleware)

/-- What the default error hook does: throw a TypeError, return silently, or
write a diagnostic string to the error-reporting channel. -/
inductive OnerrorResult where
  | typeError : String → OnerrorResult
  | silentRet : OnerrorResult
  | wrote : String → OnerrorResult
deriving DecidableEq

/-- Split a string at every newline character; a direct structural model of
the line decomposition that the per-line regex anchor of application.js line
264 induces (the trailing empty line included). -/
def splitLinesAux : List Char → List Char → List String
  | [], acc => [String.mk acc.reverse]
  | c :: rest, acc =>
    if c = '\n' then String.mk acc.reverse :: splitLinesAux rest []
    else splitLinesAux rest (c :: acc)

/-- Lines of a string, split at newline characters. -/
def splitLines (s : String) : List String := splitLinesAux s.data []

/-- Two-space indentation of every line: the effect of replacing each
line-start anchor by two spaces (application.js line 264). -/
def indent2 (s : String) : String :=
  String.intercalate "\n" ((splitLines s).map (fun l => "  " ++ l))

/-- The diagnostic text chosen by the default hook: err.stack, or
err.toString() when the stack is absent or empty (application.js line 263). -/
def errMsg (e : ErrObj) : String := jsOrS (e.stack.getD "") e.toStr

/-- Shallow embedding of the default onerror hook (application.js lines
251-271): a non-error value throws a TypeError; a 404-status or exposed
error returns silently, as does any error when the application is silent;
otherwise the indented diagnostic is written to the error-reporting
channel framed by blank lines. -/
def App.onerror (app : App) (err : ErrVal) : OnerrorResult :=
  match err with
  | ErrVal.nonError r => OnerrorResult.typeError ("non-error thrown: " ++ r)
  | ErrVal.genuine e =>
    if e.status = some 404 ∨ e.expose = true then OnerrorResult.silentRet
    else if app.silent then OnerrorResult.silentRet
    else OnerrorResult.wrote ("\n" ++ indent2 (errMsg e) ++ "\n")

/-- The JSON snapshot of an application: exactly the three settings exposed
by toJSON, and nothing else, by construction of this record type. -/
structure AppJSON where
  subdomainOffset : Int
  proxy : Bool
  env : String
deriving DecidableEq

/-- Shallow embedding of toJSON (application.js lines 130-136): the snapshot
restricted to subdomainOffset, proxy and env. -/
def App.toJSON (app : App) : AppJSON :=
  { subdomainOffset := app.subdomainOffset, proxy := app.proxy, env := app.env }

/-- Shallow embedding of inspect (application.js lines 145-147): delegates
to toJSON. -/
def App.inspect (app : App) : AppJSON := App.toJSON app

/-- The raw incoming request as the context factory reads it: the object
identity and the URL (application.js line 239 only reads req.url). -/
structure IncomingMsg where
  objId : Nat
  url : String
deriving DecidableEq

/-- The raw outgoing response as the context factory stores it: its object
identity. -/
structure ServerRes where
  objId : Nat
deriving DecidableEq

/-- The per-request request wrapper built by createContext: its own object
identity, the back-references to the owning application and the raw pair,
the identities of its context and of its sibling response wrapper, and the
originalUrl copy (application.js lines 230-239). -/
structure KoaRequest where
  objId : Nat
  app : App
  req : IncomingMsg
  res : ServerRes
  ctxId : Nat
  responseId : Nat
  originalUrl : String

/-- The per-request response wrapper built by createContext: its own object
identity, the back-references to the owning application and the raw pair,
and the identities of its context and of its sibling request wrapper
(application.js lines 232-238). -/
structure KoaResponse where
  objId : Nat
  app : App
  req : IncomingMsg
  res : ServerRes
  ctxId : Nat
  requestId : Nat

/-- The per-request context built by createContext: its own object identity,
the owning application, the raw pair, the two wrappers, the identity of its
freshly allocated state bag, and originalUrl (application.js lines
226-242). -/
structure Context where
  objId : Nat
  app : App
  req : IncomingMsg
  res : ServerRes
  request : KoaRequest
  response : KoaResponse
  stateId : Nat
  originalUrl : String

/-- A mutable state bag: the free-form per-request mapping held by
context.state. -/
abbrev StateBag : Type := List (String × String)

/-- The allocation state threading object identity through the embedding: a
fresh-id counter and the heap of live state bags.  This renders the fact
that each JS object literal is a fresh allocation. -/
structure Alloc where
  next : Nat
  bags : List (Nat × StateBag)

/-- Look a state bag up in the heap by its identity. -/
def bagLookup : List (Nat × StateBag) → Nat → Option StateBag
  | [], _ => none
  | p :: rest, i => if p.1 = i then some p.2 else bagLookup rest i

/-- Mutate the state bag with identity i by inserting one key-value pair,
leaving every other bag untouched: the embedding of a write to one
context's state. -/
def bagSet : List (Nat × StateBag) → Nat → String → String → List (Nat × StateBag)
  | [], _, _, _ => []
  | p :: rest, i, k, v =>
    if p.1 = i then (p.1, (k, v) :: p.2) :: rest else p :: bagSet rest i k v

/-- Shallow embedding of createContext (application.js lines 226-242): build
the context and its two wrappers as fresh objects, wire every back-reference
and cross-reference exactly as the source does, copy req.url into
originalUrl on both the context and the request wrapper, and allocate a
fresh empty state bag. -/
def createContext (app : App) (σ : Alloc) (req : IncomingMsg) (res : ServerRes) :
    Context × Alloc :=
  let request : KoaRequest :=
    ⟨σ.next + 1, app, req, res, σ.next, σ.next + 2, req.url⟩
  let response : KoaResponse :=
    ⟨σ.next + 2, app, req, res, σ.next, σ.next + 1⟩
  (⟨σ.next, app, req, res, request, response, σ.next + 3, req.url⟩,
   ⟨σ.next + 4, (σ.next + 3, []) :: σ.bags⟩)

/-- The full wiring contract of createContext over two successive calls:
every back-reference and cross-reference of the first context is in place,
its state bag is freshly empty, originalUrl matches the raw URL, the two
contexts are distinct, and a write into the first context's state bag leaves
the second context's bag untouched. -/
def createContextSpec (app : App) (σ : Alloc) (req1 : IncomingMsg) (res1 : ServerRes)
    (req2 : IncomingMsg) (res2 : ServerRes) (k v : String) : Prop :=
  let p1 := createContext app σ req1 res1
  let c1 := p1.1
  let p2 := createContext app p1.2 req2 res2
  let c2 := p2.1
  c1.app = app ∧ c1.request.app = app ∧ c1.response.app = app ∧
  c1.req = req1 ∧ c1.request.req = req1 ∧ c1.response.req = req1 ∧
  c1.res = res1 ∧ c1.request.res = res1 ∧ c1.response.res = res1 ∧
  c1.request.responseId = c1.response.objId ∧
  c1.response.requestId = c1.request.objId ∧
  c1.request.ctxId = c1.objId ∧ c1.response.ctxId = c1.objId ∧
  bagLookup p1.2.bags c1.stateId = some [] ∧
  c1.originalUrl = req1.url ∧ c1.request.originalUrl = req1.url ∧
  c1 ≠ c2 ∧
  bagLookup (bagSet p2.2.bags c1.stateId k v) c2.stateId = bagLookup p2.2.bags c2.stateId

/-- Resolution flag of a promise in the Except rendering: true exactly when
it settled successfully. -/
def promiseResolved {α : Type} : Except ErrVal α → Bool
  | Except.ok _ => true
  | Except.error _ => false

/-- The empty options object: constructing with it exercises every default. -/
def optsNone : Options := ⟨none, none, none, none, none, none⟩

/-- A concrete application built with no options and no NODE_ENV. -/
def appDefault : App := mkApplication optsNone none

/-- appDefault with the silent flag raised and an extra middleware entry:
differs from appDefault only in fields outside the JSON snapshot. -/
def appSilentVariant : App :=
  { appDefault with silent := true, middleware := [fun c _ => Except.ok c] }

/-- A concrete genuine error with status 500, not exposed, carrying a stack. -/
def e500 : ErrObj := ⟨some 500, false, some "stacktrace", "Error: boom"⟩

/-- The identity pipeline: resolves with the context unchanged. -/
def fnIdOk : Ctx → Except ErrVal Ctx := fun c => Except.ok c

/-- A serializer that throws, exercising the trailing catch of the request
dispatcher. -/
def serThrow : Ctx → Except ErrVal (Ctx × RespondAction) :=
  fun _ => Except.error (ErrVal.nonError "respond blew up")

/-- An empty allocation state. -/
def alloc0 : Alloc := ⟨0, []⟩

/-- First concrete raw request. -/
def reqA : IncomingMsg := ⟨1, "/a"⟩

/-- Second concrete raw request, a different transport object. -/
def reqB : IncomingMsg := ⟨2, "/b"⟩

/-- First concrete raw response. -/
def resA : ServerRes := ⟨1⟩

/-- Second concrete raw response. -/
def resB : ServerRes := ⟨2⟩

/-- Mutating one heap bag leaves every bag with another identity unchanged:
the key lemma behind state-bag independence. -/
theorem bagSet_other (bags : List (Nat × StateBag)) (i j : Nat) (k v : String)
    (hij : i ≠ j) : bagLookup (bagSet bags i k v) j = bagLookup bags j := by
  induction bags with
  | nil => rfl
  | cons p rest ih =>
    by_cases hp : p.1 = i
    · have hpj : ¬ p.1 = j := by rw [hp]; exact hij
      simp [bagSet, bagLookup, hp, hpj, hij]
    · simp [bagSet, bagLookup, hp, ih]

/-- C1: handleRequest first forces status 404 onto the outgoing response,
then runs the composed pipeline on that context; a successful settlement
hands the context to the serializer respond, a failed settlement hands the
error to the context's onerror hook instead. -/
theorem handleRequest_sets_404_then_dispatches (ctx : Ctx)
    (fn : Ctx → Except ErrVal Ctx) :
    handleRequest ctx fn =
      match fn (set404 ctx) with
      | Except.ok c => Except.ok (Outcome.served (respond c).1 (respond c).2)
      | Except.error e => Except.ok (Outcome.handledError e) := by
  cases h : fn (set404 ctx) with
  | ok c => simp [handleRequest, handleRequestWith, pCatch, pThen, h]
  | error e => simp [handleRequest, handleRequestWith, pCatch, pThen, h]

/-- C2: when the body is missing with no explicit-null marker, on a writable
non-bypassed transport, with a status outside the body-less class and a
method other than HEAD, the serializer ends with the synthesized fallback
body (stringified code on HTTP/2+, else the status message or, failing
that, the stringified code), and when headers are unsent it sets
content-type to plain text and content-length to the fallback's byte
length. -/
theorem respond_null_body_fallback (ctx : Ctx)
    (hb : ctx.body = Body.null) (hn : ctx.explicitNullBody = false)
    (he : statuses_empty ctx.status = false) (hm : ¬ ctx.method = "HEAD")
    (hr : ctx.respondBypass = false) (hw : ctx.writable = true) :
    (respond ctx).2 = RespondAction.endWith (fallbackBody ctx) ∧
    (ctx.res.headersSent = false →
      (respond ctx).1.contentType = some "text" ∧
      (respond ctx).1.contentLength = some (fallbackBody ctx).utf8ByteSize) := by
  cases hhs : ctx.res.headersSent <;>
    simp [respond, hb, hn, he, hm, hr, hw, hhs]

/-- Witness for C2: the concrete HTTP/1.1 context with status 404 and null
body yields body "Not Found" with plain-text type and length 9, and its
HTTP/2 variant yields body "404". -/
theorem respond_null_body_fallback_witness :
    (respond ctxNull404).2 = RespondAction.endWith "Not Found" ∧
    (respond ctxNull404).1.contentType = some "text" ∧
    (respond ctxNull404).1.contentLength = some 9 ∧
    (respond ctxNull404H2).2 = RespondAction.endWith "404" := by
  have h1 := respond_null_body_fallback ctxNull404 rfl rfl (by decide) (by decide) rfl rfl
  have h2 := respond_null_body_fallback ctxNull404H2 rfl rfl (by decide) (by decide) rfl rfl
  exact ⟨h1.1, (h1.2 rfl).1, (h1.2 rfl).2, h2.1⟩

/-- C3: for a status in the body-less class on a writable non-bypassed
transport, the serializer sets the context's body to null and ends the
response with zero bytes, whatever body was set. -/
theorem respond_bodyless_status_discards (ctx : Ctx)
    (he : statuses_empty ctx.status = true)
    (hr : ctx.respondBypass = false) (hw : ctx.writable = true) :
    (respond ctx).2 = RespondAction.endEmpty ∧ (respond ctx).1.body = Body.null := by
  simp [respond, he, hr, hw]

/-- Witness for C3: a concrete 204 context with a string body still ends
empty and has its body discarded. -/
theorem respond_bodyless_status_discards_witness :
    (respond ctxEmpty204).2 = RespondAction.endEmpty ∧
    (respond ctxEmpty204).1.body = Body.null :=
  respond_bodyless_status_discards ctxEmpty204 (by decide) rfl rfl

/-- C4: the default onerror hook throws a TypeError on a non-error value;
for a genuine error it stays silent exactly when the status is 404, the
error is exposed, or the application is silent; otherwise it writes the
indented stack-or-string diagnostic to the error-reporting channel. -/
theorem onerror_default_policy (app : App) (e : ErrObj) (r : String) :
    App.onerror app (ErrVal.nonError r) =
      OnerrorResult.typeError ("non-error thrown: " ++ r) ∧
    (App.onerror app (ErrVal.genuine e) = OnerrorResult.silentRet ↔
      (e.status = some 404 ∨ e.expose = true ∨ app.silent = true)) ∧
    (¬ (e.status = some 404 ∨ e.expose = true ∨ app.silent = true) →
      App.onerror app (ErrVal.genuine e) =
        OnerrorResult.wrote ("\n" ++ indent2 (errMsg e) ++ "\n")) := by
  refine ⟨rfl, ?_, ?_⟩
  · cases hs : app.silent
    · by_cases h1 : e.status = some 404 ∨ e.expose = true
      · simp [App.onerror, h1, hs]
      · simp [App.onerror, h1, hs]
    · by_cases h1 : e.status = some 404 ∨ e.expose = true
      · simp [App.onerror, h1, hs]
      · simp [App.onerror, h1, hs]
  · intro hnot
    push_neg at hnot
    simp [App.onerror, hnot.1, hnot.2.1, hnot.2.2]

/-- Witness for C4: with the default (non-silent) application, a non-error
value yields a TypeError and the concrete unexposed 500 error yields the
indented stacktrace diagnostic. -/
theorem onerror_default_policy_witness :
    App.onerror appDefault (ErrVal.nonError "42") =
      OnerrorResult.typeError "non-error thrown: 42" ∧
    App.onerror appDefault (ErrVal.genuine e500) =
      OnerrorResult.wrote "\n  stacktrace\n" := by
  have h := onerror_default_policy appDefault e500 "42"
  exact ⟨h.1, h.2.2 (by decide)⟩

/-- C5: use throws a TypeError on a non-callable argument, leaving the
middleware list untouched; on a callable it appends at the end of the list
and returns the application itself. -/
theorem use_rejects_noncallable_appends_callable (app : App) (v : String)
    (f : Middleware) :
    App.use app (FnVal.notFunc v) =
      (app, UseOutcome.threwTypeError "middleware must be a function!") ∧
    (App.use app (FnVal.notFunc v)).1.middleware = app.middleware ∧
    (App.use app (FnVal.func f)).1.middleware = app.middleware ++ [f] ∧
    (App.use app (FnVal.func f)).2 = UseOutcome.returnedSelf :=
  ⟨rfl, rfl, rfl, rfl⟩

/-- C6: createContext wires every back-reference and cross-reference,
initializes a fresh empty state bag and copies the raw URL into
originalUrl; two calls on different transport pairs produce distinct
contexts with independently mutable state bags. -/
theorem createContext_wiring (app : App) (σ : Alloc) (req1 : IncomingMsg)
    (res1 : ServerRes) (req2 : IncomingMsg) (res2 : ServerRes) (k v : String)
    (hne : req1 ≠ req2) :
    createContextSpec app σ req1 res1 req2 res2 k v := by
  unfold createContextSpec
  refine ⟨rfl, rfl, rfl, rfl, rfl, rfl, rfl, rfl, rfl, rfl, rfl, rfl, rfl,
    ?_, rfl, rfl, ?_, ?_⟩
  · simp [createContext, bagLookup]
  · intro h
    exact hne (congrArg Context.req h)
  · exact bagSet_other _ _ _ k v (by simp [createContext])

/-- Witness for C6: the wiring contract holds for two concrete transport
pairs over the empty allocation state. -/
theorem createContext_wiring_witness :
    createContextSpec appDefault alloc0 reqA resA reqB resB "x" "1" :=
  createContext_wiring appDefault alloc0 reqA resA reqB resB "x" "1" (by decide)

/-- C7: callback composes the middleware list as it stands at the call, so a
handler already produced keeps serving with that frozen pipeline while a
handler produced after a further use call serves with the extended list. -/
theorem callback_snapshot_freezes_chain (app : App) (f : Middleware) (ctx : Ctx) :
    callback app ctx = handleRequest ctx (composeRun app.middleware) ∧
    (App.use app (FnVal.func f)).1.middleware = app.middleware ++ [f] ∧
    callback (App.use app (FnVal.func f)).1 ctx =
      handleRequest ctx (composeRun (app.middleware ++ [f])) :=
  ⟨rfl, rfl, rfl⟩

/-- C8: the JSON snapshot holds exactly subdomainOffset, proxy and env with
their current values, inspect delegates to it, and the snapshot ignores
every other application field. -/
theorem toJSON_exposes_three_settings (app a b : App)
    (h1 : a.subdomainOffset = b.subdomainOffset) (h2 : a.proxy = b.proxy)
    (h3 : a.env = b.env) :
    App.toJSON app = AppJSON.mk app.subdomainOffset app.proxy app.env ∧
    App.inspect app = App.toJSON app ∧
    App.toJSON a = App.toJSON b := by
  refine ⟨rfl, rfl, ?_⟩
  simp [App.toJSON, h1, h2, h3]

/-- Witness for C8: two concrete applications differing only in silent flag
and middleware have identical snapshots. -/
theorem toJSON_exposes_three_settings_witness :
    App.inspect appDefault = App.toJSON appDefault ∧
    App.toJSON appDefault = App.toJSON appSilentVariant := by
  have h := toJSON_exposes_three_settings appDefault appDefault appSilentVariant rfl rfl rfl
  exact ⟨h.2.1, h.2.2⟩

/-- C9: the promise returned by handleRequest never rejects, for any
pipeline and any serializer; in particular an error thrown by the
serializer on the success path is caught by the trailing catch and handed
to the onerror hook. -/
theorem handleRequest_promise_never_rejects (ctx : Ctx)
    (fn : Ctx → Except ErrVal Ctx)
    (s : Ctx → Except ErrVal (Ctx × RespondAction)) (c : Ctx) (e : ErrVal)
    (hok : fn (set404 ctx) = Except.ok c) (hfail : s c = Except.error e) :
    (∀ (ctx2 : Ctx) (fn2 : Ctx → Except ErrVal Ctx)
        (s2 : Ctx → Except ErrVal (Ctx × RespondAction)),
        promiseResolved (handleRequestWith ctx2 fn2 s2) = true) ∧
    handleRequestWith ctx fn s = Except.ok (Outcome.handledError e) := by
  constructor
  · intro ctx2 fn2 s2
    cases h2 : fn2 (set404 ctx2) with
    | ok c2 =>
      cases h3 : s2 c2 with
      | ok r => simp [handleRequestWith, pCatch, pThen, promiseResolved, h2, h3]
      | error e2 => simp [handleRequestWith, pCatch, pThen, promiseResolved, h2, h3]
    | error e2 => simp [handleRequestWith, pCatch, pThen, promiseResolved, h2]
  · simp [handleRequestWith, pCatch, pThen, hok, hfail]

/-- Witness for C9: with the identity pipeline and a throwing serializer on
a concrete context, the dispatch still resolves and the serializer's error
is handed to the onerror hook. -/
theorem handleRequest_promise_never_rejects_witness :
    promiseResolved (handleRequestWith ctxNull404 fnIdOk serThrow) = true ∧
    handleRequestWith ctxNull404 fnIdOk serThrow =
      Except.ok (Outcome.handledError (ErrVal.nonError "respond blew up")) := by
  have h := handleRequest_promise_never_rejects ctxNull404 fnIdOk serThrow
    (set404 ctxNull404) (ErrVal.nonError "respond blew up") rfl rfl
  exact ⟨h.1 ctxNull404 fnIdOk serThrow, h.2⟩

/-- C10: every falsy explicitly-supplied option falls back to its default
(subdomainOffset 0 becomes 2, proxyIpHeader "" becomes "X-Forwarded-For",
env "" becomes NODE_ENV-or-"development"), and no options object can yield
subdomainOffset 0. -/
theorem constructor_falsy_option_defaults (opts : Options) (nodeEnv : Option String) :
    (mkApplication { opts with subdomainOffset := some 0 } nodeEnv).subdomainOffset = 2 ∧
    (mkApplication { opts with proxyIpHeader := some "" } nodeEnv).proxyIpHeader =
      "X-Forwarded-For" ∧
    (mkApplication { opts with env := some "" } nodeEnv).env =
      jsOrOptS nodeEnv "development" ∧
    (mkApplication opts nodeEnv).subdomainOffset ≠ 0 := by
  refine ⟨rfl, rfl, rfl, ?_⟩
  show jsOrOptI opts.subdomainOffset 2 ≠ 0
  cases ho : opts.subdomainOffset with
  | none => simp [jsOrOptI]
  | some n =>
    by_cases hn : n = 0
    · simp [jsOrOptI, hn]
    · simp [jsOrOptI, hn]

/-- Witness for C10: the fallbacks at the concrete empty options object with
no NODE_ENV. -/
theorem constructor_falsy_option_defaults_witness :
    (mkApplication { optsNone with subdomainOffset := some 0 } none).subdomainOffset = 2 ∧
    (mkApplication { optsNone with proxyIpHeader := some "" } none).proxyIpHeader =
      "X-Forwarded-For" ∧
    (mkApplication { optsNone with env := some "" } none).env = "development" ∧
    (mkApplication optsNone none).subdomainOffset ≠ 0 := by
  have h := constructor_falsy_option_defaults optsNone none
  exact ⟨h.1, h.2.1, h.2.2.1, h.2.2.2⟩
